import Mathlib

/-!
Verification development for the cuboid grasp generator
(`src/grasp_generator.cpp` of `moveit_grasps`).

The geometric core of the generator is embedded shallowly:

* 3-vectors, 3x3 matrices and affine rigid transforms (`Eigen::Vector3d`,
  `Eigen::Matrix3d`, `Eigen::Affine3d`) become `V3`, `M3` and `Aff` over a
  field.  The combinatorial pipeline is instantiated at `ℚ` (exact real
  arithmetic in place of IEEE doubles), so every enumeration is executable
  and decidable.  The scoring function, which genuinely needs `acos`, `sqrt`
  and `π`, is instantiated at `ℝ`.
* `Eigen::AngleAxisd(θ, UnitX/Y/Z)` is the standard rotation matrix about
  the given axis; at the `ℚ` layer a rotation is passed as the pair
  `(cos θ, sin θ)` of the angle's trigonometric values, at the `ℝ` layer as
  `Real.cos θ` / `Real.sin θ` directly.
* The integer sampling counts that the source derives from `M_PI`
  (`num_radial_grasps`, `max_iterations`) are defined over `ℝ` exactly as
  in the source and enter the `ℚ`-level pipeline as parameters
  (`AngleParams`); the `π`-free counts (`num_grasps_along_a/b`,
  `num_depth_grasps`) are computed inside the pipeline over `ℚ`.
* `Eigen`'s eigensolver (used only by `getBoundingBoxFromMesh`) is an
  external library call; it is modelled as a function parameter returning
  the matrix of (real parts of the) eigenvectors.
-/

namespace MoveitGrasps

/-- A 3-vector (`Eigen::Vector3d`). -/
structure V3 (α : Type) where
  x : α
  y : α
  z : α
deriving DecidableEq

/-- A 3x3 matrix given by its three rows (`Eigen::Matrix3d`). -/
structure M3 (α : Type) where
  r0 : V3 α
  r1 : V3 α
  r2 : V3 α
deriving DecidableEq

/-- An affine transform: linear part plus translation (`Eigen::Affine3d`). -/
structure Aff (α : Type) where
  lin : M3 α
  tr : V3 α
deriving DecidableEq

variable {α : Type} [Field α]

instance : Add (V3 α) := ⟨fun a b => ⟨a.x + b.x, a.y + b.y, a.z + b.z⟩⟩

instance : Sub (V3 α) := ⟨fun a b => ⟨a.x - b.x, a.y - b.y, a.z - b.z⟩⟩

instance : Neg (V3 α) := ⟨fun a => ⟨-a.x, -a.y, -a.z⟩⟩

instance : SMul α (V3 α) := ⟨fun c v => ⟨c * v.x, c * v.y, c * v.z⟩⟩

/-- Dot product of two 3-vectors. -/
def V3.dot (a b : V3 α) : α := a.x * b.x + a.y * b.y + a.z * b.z

/-- Cross product of two 3-vectors. -/
def V3.cross (a b : V3 α) : V3 α :=
  ⟨a.y * b.z - a.z * b.y, a.z * b.x - a.x * b.z, a.x * b.y - a.y * b.x⟩

/-- `Eigen::Vector3d::UnitX()`. -/
def unitX : V3 α := ⟨1, 0, 0⟩

/-- `Eigen::Vector3d::UnitY()`. -/
def unitY : V3 α := ⟨0, 1, 0⟩

/-- `Eigen::Vector3d::UnitZ()`. -/
def unitZ : V3 α := ⟨0, 0, 1⟩

/-- Matrix * vector. -/
def M3.mulVec (m : M3 α) (v : V3 α) : V3 α := ⟨m.r0.dot v, m.r1.dot v, m.r2.dot v⟩

/-- Matrix * matrix, written out entrywise. -/
def M3.mul (a b : M3 α) : M3 α :=
  ⟨⟨a.r0.x * b.r0.x + a.r0.y * b.r1.x + a.r0.z * b.r2.x,
    a.r0.x * b.r0.y + a.r0.y * b.r1.y + a.r0.z * b.r2.y,
    a.r0.x * b.r0.z + a.r0.y * b.r1.z + a.r0.z * b.r2.z⟩,
   ⟨a.r1.x * b.r0.x + a.r1.y * b.r1.x + a.r1.z * b.r2.x,
    a.r1.x * b.r0.y + a.r1.y * b.r1.y + a.r1.z * b.r2.y,
    a.r1.x * b.r0.z + a.r1.y * b.r1.z + a.r1.z * b.r2.z⟩,
   ⟨a.r2.x * b.r0.x + a.r2.y * b.r1.x + a.r2.z * b.r2.x,
    a.r2.x * b.r0.y + a.r2.y * b.r1.y + a.r2.z * b.r2.y,
    a.r2.x * b.r0.z + a.r2.y * b.r1.z + a.r2.z * b.r2.z⟩⟩

/-- Identity matrix. -/
def M3.id : M3 α := ⟨⟨1, 0, 0⟩, ⟨0, 1, 0⟩, ⟨0, 0, 1⟩⟩

/-- Determinant of a 3x3 matrix. -/
def M3.det (m : M3 α) : α :=
  m.r0.x * (m.r1.y * m.r2.z - m.r1.z * m.r2.y)
    - m.r0.y * (m.r1.x * m.r2.z - m.r1.z * m.r2.x)
    + m.r0.z * (m.r1.x * m.r2.y - m.r1.y * m.r2.x)

/-- Matrix inverse via the adjugate (`Eigen`'s dense 3x3 inverse).  On a
singular matrix the field's junk value `1/0 = 0` appears, mirroring the
unchecked behaviour of the source. -/
def M3.inv (m : M3 α) : M3 α :=
  let d := m.det
  ⟨⟨(m.r1.y * m.r2.z - m.r1.z * m.r2.y) / d,
    (m.r0.z * m.r2.y - m.r0.y * m.r2.z) / d,
    (m.r0.y * m.r1.z - m.r0.z * m.r1.y) / d⟩,
   ⟨(m.r1.z * m.r2.x - m.r1.x * m.r2.z) / d,
    (m.r0.x * m.r2.z - m.r0.z * m.r2.x) / d,
    (m.r0.z * m.r1.x - m.r0.x * m.r1.z) / d⟩,
   ⟨(m.r1.x * m.r2.y - m.r1.y * m.r2.x) / d,
    (m.r0.y * m.r2.x - m.r0.x * m.r2.y) / d,
    (m.r0.x * m.r1.y - m.r0.y * m.r1.x) / d⟩⟩

/-- Rotation about the X axis by an angle with cosine `c` and sine `s`
(`Eigen::AngleAxisd(θ, UnitX())`). -/
def rotX (c s : α) : M3 α := ⟨⟨1, 0, 0⟩, ⟨0, c, -s⟩, ⟨0, s, c⟩⟩

/-- Rotation about the Y axis (`Eigen::AngleAxisd(θ, UnitY())`). -/
def rotY (c s : α) : M3 α := ⟨⟨c, 0, s⟩, ⟨0, 1, 0⟩, ⟨-s, 0, c⟩⟩

/-- Rotation about the Z axis (`Eigen::AngleAxisd(θ, UnitZ())`). -/
def rotZ (c s : α) : M3 α := ⟨⟨c, -s, 0⟩, ⟨s, c, 0⟩, ⟨0, 0, 1⟩⟩

/-- Identity transform (`Eigen::Affine3d::Identity()`). -/
def Aff.id : Aff α := ⟨M3.id, ⟨0, 0, 0⟩⟩

/-- Apply an affine transform to a point (`T * p`). -/
def Aff.apply (a : Aff α) (v : V3 α) : V3 α := a.lin.mulVec v + a.tr

/-- Composition of affine transforms (`T1 * T2`). -/
def Aff.comp (a b : Aff α) : Aff α := ⟨a.lin.mul b.lin, a.lin.mulVec b.tr + a.tr⟩

/-- `T *= R` for a rotation `R`: multiplies the linear part on the right,
leaving the translation unchanged (Eigen's `Affine3d * AngleAxisd`). -/
def Aff.mulM (a : Aff α) (m : M3 α) : Aff α := ⟨a.lin.mul m, a.tr⟩

/-- Affine inverse (`Eigen::Affine3d::inverse()`):
`T⁻¹ = (L⁻¹, -L⁻¹ t)`. -/
def Aff.inv (a : Aff α) : Aff α := ⟨a.lin.inv, -(a.lin.inv.mulVec a.tr)⟩

/-- The gripper parameters consumed by the generator
(the used fields of `moveit_grasps::GraspData`). -/
structure GraspData (α : Type) where
  gripper_width : α
  finger_to_palm_depth : α
  grasp_min_depth : α
  grasp_resolution : α
  grasp_depth_resolution : α
  grasp_pose_to_eef_pose : Aff α
deriving DecidableEq

/-- `GraspGenerator::intersectionHelper` (grasp_generator.cpp:464-478):
given the segment parameter `t` at which the segment crosses the face's
plane and the segment's two in-plane coordinate pairs, decide whether the
crossing point lies inside the rectangle `[-a/2, a/2] × [-b/2, b/2]`.
The C++ output parameters `u`, `v` are only read by commented-out
visualization code and are dropped here. -/
def intersectionHelper (t u1 v1 u2 v2 a b : ℚ) : Bool :=
  if 0 ≤ t ∧ t ≤ 1 then
    let u := u1 + t * (u2 - u1)
    let v := v1 + t * (v2 - v1)
    if -a / 2 ≤ u ∧ u ≤ a / 2 ∧ -b / 2 ≤ v ∧ v ≤ b / 2 then true else false
  else false

/-- `GraspGenerator::graspIntersectionHelper` (grasp_generator.cpp:354-462):
does the reach-in segment, from the grasp position to the point
`finger_to_palm_depth` along the grasp's local Z axis, intersect one of the
six faces of the cuboid?  Each face check solves for the parameter `t` at
which the segment meets the face's plane and delegates to
`intersectionHelper` with the two in-plane coordinates.  A segment parallel
to a face's plane makes the corresponding division a division by zero; the
field junk value `t = 0` then arises where IEEE arithmetic produces
`±inf`/`NaN` (both make that single face check false in the concrete
instances evaluated below). -/
def graspIntersectionHelper (cuboid_pose : Aff ℚ) (depth width height : ℚ)
    (grasp_pose : Aff ℚ) (gd : GraspData ℚ) : Bool :=
  let point_a := grasp_pose.tr
  let point_b := point_a + gd.finger_to_palm_depth • grasp_pose.lin.mulVec unitZ
  let pa := cuboid_pose.inv.apply point_a
  let pb := cuboid_pose.inv.apply point_b
  intersectionHelper ((height / 2 - pa.z) / (pb.z - pa.z)) pa.x pa.y pb.x pb.y depth width
    || intersectionHelper ((-height / 2 - pa.z) / (pb.z - pa.z)) pa.x pa.y pb.x pb.y depth width
    || intersectionHelper ((width / 2 - pa.y) / (pb.y - pa.y)) pa.x pa.z pb.x pb.z depth height
    || intersectionHelper ((-width / 2 - pa.y) / (pb.y - pa.y)) pa.x pa.z pb.x pb.z depth height
    || intersectionHelper ((depth / 2 - pa.x) / (pb.x - pa.x)) pa.y pa.z pb.y pb.z width height
    || intersectionHelper ((-depth / 2 - pa.x) / (pb.x - pa.x)) pa.y pa.z pb.y pb.z width height

/-- The box axis around which one invocation of
`generateCuboidAxisGrasps` works (`grasp_axis_t`). -/
inductive GraspAxis
  | X
  | Y
  | Z
deriving DecidableEq

/-- The `M_PI`-derived sampling parameters of one `generateCuboidAxisGrasps`
invocation, supplied to the exact-arithmetic pipeline as data:
`(cRes, sRes)` are `(cos, sin)` of `angle_res` (the angular resolution in
radians, `grasp_data->angle_resolution_ * M_PI / 180`), `(cDelta, sDelta)`
are `(cos, sin)` of the corner-fan step `delta_angle = (π/2)/(numRadial+1)`,
`numRadial` is `num_radial_grasps` after its `≤ 0 → 1` clamp
(grasp_generator.cpp:134-137, tied to the real-number formula by
`numRadialGrasps` below), and `maxIter` is `max_iterations`
(grasp_generator.cpp:248, see `maxIterations` below). -/
structure AngleParams where
  cRes : ℚ
  sRes : ℚ
  cDelta : ℚ
  sDelta : ℚ
  numRadial : ℕ
  maxIter : ℕ
deriving DecidableEq

/-- The switch on the grasp axis (grasp_generator.cpp:85-117): the lengths
`(length_along_a, length_along_b)` of the two face directions. -/
def axisLengths (axis : GraspAxis) (depth width height : ℚ) : ℚ × ℚ :=
  match axis with
  | GraspAxis.X => (width, height)
  | GraspAxis.Y => (depth, height)
  | GraspAxis.Z => (depth, width)

/-- The directions `a_dir`, `b_dir` of the same switch
(`grasp_pose.rotation() * UnitY()` etc.).  The subsequent `.normalized()`
is the identity here because the cuboid pose's rotation is orthonormal, so
its columns are already unit vectors. -/
def axisDirs (axis : GraspAxis) (cuboid_pose : Aff ℚ) : V3 ℚ × V3 ℚ :=
  match axis with
  | GraspAxis.X => (cuboid_pose.lin.mulVec unitY, cuboid_pose.lin.mulVec unitZ)
  | GraspAxis.Y => (cuboid_pose.lin.mulVec unitX, cuboid_pose.lin.mulVec unitZ)
  | GraspAxis.Z => (cuboid_pose.lin.mulVec unitX, cuboid_pose.lin.mulVec unitY)

/-- The rotation `RX(alpha_x) * RY(alpha_y) * RZ(alpha_z)` built from the
`rotation_angles` array (grasp_generator.cpp:119-122, applied at lines
308-310 and 336-338).  The alphas are the multiples of `π/2` fixed in the
axis switch; their cosines and sines are the exact values `0`, `±1`:
`X`: `(-π/2, 0, -π/2)`, `Y`: `(0, π/2, π)`, `Z`: `(π/2, π/2, 0)`. -/
def axisAlphaRot (axis : GraspAxis) : M3 ℚ :=
  match axis with
  | GraspAxis.X => (M3.mul (rotX 0 (-1)) (rotY 1 0)).mul (rotZ 0 (-1))
  | GraspAxis.Y => (M3.mul (rotX 1 0) (rotY 0 1)).mul (rotZ (-1) 0)
  | GraspAxis.Z => (M3.mul (rotX 0 1) (rotY 0 1)).mul (rotZ 1 0)

/-- `double offset = 0.001` — the palm is backed off the object slightly
(grasp_generator.cpp:130). -/
def offsetQ : ℚ := 1 / 1000

/-- The fan loop of `addCornerGraspsHelper` (grasp_generator.cpp:342-349):
each iteration first rotates the running pose by `delta_angle` about its
local Y axis and then pushes it (the unrotated start pose is not pushed;
the loop variables `grasp_dir`/`radial_pose` of the source are dead code). -/
def cornerFan (stepDelta : M3 ℚ) : ℕ → Aff ℚ → List (Aff ℚ)
  | 0, _ => []
  | n + 1, pose =>
    let pose' := pose.mulM stepDelta
    pose' :: cornerFan stepDelta n pose'

/-- `GraspGenerator::addCornerGraspsHelper` (grasp_generator.cpp:325-352):
align the cuboid pose with the edge (base rotation, then the corner's
rotation about Y, then the corner translation) and append the radial fan. -/
def addCornerGraspsHelper (pose : Aff ℚ) (baseRot : M3 ℚ) (translation : V3 ℚ)
    (cornerRot : M3 ℚ) (ap : AngleParams) (grasp_poses : List (Aff ℚ)) : List (Aff ℚ) :=
  let grasp_pose : Aff ℚ := ⟨(pose.lin.mul baseRot).mul cornerRot, pose.tr + translation⟩
  grasp_poses ++ cornerFan (rotY ap.cDelta ap.sDelta) ap.numRadial grasp_pose

/-- The corner-grasp block of `generateCuboidAxisGrasps`
(grasp_generator.cpp:127-155): four `addCornerGraspsHelper` calls at the
corners `(-a,-b)`, `(-a,+b)`, `(+a,+b)`, `(+a,-b)` with corner rotations
`0`, `-π/2`, `π`, `π/2` about Y. -/
def cornerStage (cuboid_pose : Aff ℚ) (depth width height : ℚ) (axis : GraspAxis)
    (ap : AngleParams) : List (Aff ℚ) :=
  let lab := axisLengths axis depth width height
  let dirs := axisDirs axis cuboid_pose
  let baseRot := axisAlphaRot axis
  let corner_translation_a := (1 / 2 * (lab.1 + offsetQ)) • dirs.1
  let corner_translation_b := (1 / 2 * (lab.2 + offsetQ)) • dirs.2
  let g1 := addCornerGraspsHelper cuboid_pose baseRot
    (-corner_translation_a + -corner_translation_b) (rotY 1 0) ap []
  let g2 := addCornerGraspsHelper cuboid_pose baseRot
    (-corner_translation_a + corner_translation_b) (rotY 0 (-1)) ap g1
  let g3 := addCornerGraspsHelper cuboid_pose baseRot
    (corner_translation_a + corner_translation_b) (rotY (-1) 0) ap g2
  addCornerGraspsHelper cuboid_pose baseRot
    (corner_translation_a + -corner_translation_b) (rotY 0 1) ap g3

/-- `num_grasps_along_a/b` before the gripper-wider-than-face fallback:
`floor((face_extent - gripper_width)/grasp_resolution) + 1`
(grasp_generator.cpp:160-161). -/
def numGraspsAlong (face_extent gripper_width grasp_resolution : ℚ) : ℤ :=
  ⌊(face_extent - gripper_width) / grasp_resolution⌋ + 1

/-- The row loop of `addFaceGraspsHelper` (grasp_generator.cpp:314-319):
each iteration first advances the translation by `delta`, then pushes. -/
def faceRow (delta : V3 ℚ) : ℕ → Aff ℚ → List (Aff ℚ)
  | 0, _ => []
  | n + 1, pose =>
    let pose' : Aff ℚ := ⟨pose.lin, pose.tr + delta⟩
    pose' :: faceRow delta n pose'

/-- `GraspGenerator::addFaceGraspsHelper` (grasp_generator.cpp:299-323):
base rotation, then the face's alignment rotation about Y, then the face
translation, then the linear row.  `num_grasps` is the source's `int`; a
non-positive value runs the loop zero times (`Int.toNat`). -/
def addFaceGraspsHelper (pose : Aff ℚ) (baseRot : M3 ℚ) (translation : V3 ℚ)
    (delta : V3 ℚ) (alignRot : M3 ℚ) (num_grasps : ℤ)
    (grasp_poses : List (Aff ℚ)) : List (Aff ℚ) :=
  let grasp_pose : Aff ℚ := ⟨(pose.lin.mul baseRot).mul alignRot, pose.tr + translation⟩
  grasp_poses ++ faceRow delta num_grasps.toNat grasp_pose

/-- The face-grasp block of `generateCuboidAxisGrasps`
(grasp_generator.cpp:157-213).  Faithful to the source, including:
* the fallback `num_grasps = 3` when the computed count is `≤ 0` (the
  fallback's provisional `delta` assignment at lines 167/172 is dead —
  it is overwritten by the `num == 1` if/else chain at lines 176-184);
* all four `addFaceGraspsHelper` calls passing `num_grasps_along_b`
  (lines 198, 203, 208, 213), including the two faces whose rows step by
  `delta_a` along `a_dir`. -/
def faceStage (cuboid_pose : Aff ℚ) (depth width height : ℚ) (axis : GraspAxis)
    (gd : GraspData ℚ) (grasp_poses : List (Aff ℚ)) : List (Aff ℚ) :=
  let lab := axisLengths axis depth width height
  let dirs := axisDirs axis cuboid_pose
  let baseRot := axisAlphaRot axis
  let na0 := numGraspsAlong lab.1 gd.gripper_width gd.grasp_resolution
  let nb0 := numGraspsAlong lab.2 gd.gripper_width gd.grasp_resolution
  let num_grasps_along_a := if na0 ≤ 0 then 3 else na0
  let num_grasps_along_b := if nb0 ≤ 0 then 3 else nb0
  let delta_a : ℚ := if num_grasps_along_a = 1 then 0
    else (lab.1 - gd.gripper_width) / ((num_grasps_along_a : ℚ) - 1)
  let delta_b : ℚ := if num_grasps_along_b = 1 then 0
    else (lab.2 - gd.gripper_width) / ((num_grasps_along_b : ℚ) - 1)
  let a_translation := -((1 / 2 * (lab.1 + offsetQ)) • dirs.1)
    + -((1 / 2 * (lab.2 - gd.gripper_width)) • dirs.2) + -(delta_b • dirs.2)
  let b_translation := -((1 / 2 * (lab.1 - gd.gripper_width)) • dirs.1)
    + -(delta_a • dirs.1) + -((1 / 2 * (lab.2 + offsetQ)) • dirs.2)
  let p1 := addFaceGraspsHelper cuboid_pose baseRot a_translation
    (delta_b • dirs.2) (rotY 1 0) num_grasps_along_b grasp_poses
  let p2 := addFaceGraspsHelper cuboid_pose baseRot (-b_translation)
    (-(delta_a • dirs.1)) (rotY 0 (-1)) num_grasps_along_b p1
  let p3 := addFaceGraspsHelper cuboid_pose baseRot (-a_translation)
    (-(delta_b • dirs.2)) (rotY (-1) 0) num_grasps_along_b p2
  addFaceGraspsHelper cuboid_pose baseRot b_translation
    (delta_a • dirs.1) (rotY 0 1) num_grasps_along_b p3

/-- `finger_depth = finger_to_palm_depth_ - grasp_min_depth_`
(grasp_generator.cpp:76): the usable finger length. -/
def fingerDepth (gd : GraspData ℚ) : ℚ := gd.finger_to_palm_depth - gd.grasp_min_depth

/-- `num_depth_grasps = ceil(finger_depth / grasp_depth_resolution)` with
the `≤ 0 → 1` clamp (grasp_generator.cpp:217-219). -/
def numDepthGrasps (finger_depth grasp_depth_resolution : ℚ) : ℤ :=
  if ⌈finger_depth / grasp_depth_resolution⌉ ≤ 0 then 1
  else ⌈finger_depth / grasp_depth_resolution⌉

/-- The inner depth loop (grasp_generator.cpp:232-236): each iteration
subtracts `delta_f * grasp_dir` from the running translation and pushes. -/
def depthCopies (delta_f : ℚ) (grasp_dir : V3 ℚ) : ℕ → Aff ℚ → List (Aff ℚ)
  | 0, _ => []
  | n + 1, pose =>
    let pose' : Aff ℚ := ⟨pose.lin, pose.tr - delta_f • grasp_dir⟩
    pose' :: depthCopies delta_f grasp_dir n pose'

/-- The variable-depth block of `generateCuboidAxisGrasps`
(grasp_generator.cpp:215-237): for every pose accumulated so far (the loop
bound `num_grasps` is captured before the loop), push `num_depth_grasps`
copies translated backwards along the pose's local Z axis in steps of
`delta_f = finger_depth / num_depth_grasps`. -/
def depthStage (gd : GraspData ℚ) (grasp_poses : List (Aff ℚ)) : List (Aff ℚ) :=
  let n := numDepthGrasps (fingerDepth gd) gd.grasp_depth_resolution
  let delta_f := fingerDepth gd / (n : ℚ)
  grasp_poses ++
    (grasp_poses.map (fun p => depthCopies delta_f (p.lin.mulVec unitZ) n.toNat p)).flatten

/-- One direction of the variable-angle while-loop
(grasp_generator.cpp:250-262 resp. 266-278): push the rotated pose while
`graspIntersectionHelper` reports that the reach-in segment still
intersects the cuboid, rotating by the angular step about the local Y axis
after each push; the fuel bound mirrors the `iterations > max_iterations`
break, which allows at most `max_iterations + 1` pushes. -/
def sweepWhile (cuboid_pose : Aff ℚ) (depth width height : ℚ) (gd : GraspData ℚ)
    (step : M3 ℚ) : ℕ → Aff ℚ → List (Aff ℚ)
  | 0, _ => []
  | n + 1, grasp_pose =>
    if graspIntersectionHelper cuboid_pose depth width height grasp_pose gd then
      grasp_pose :: sweepWhile cuboid_pose depth width height gd step n (grasp_pose.mulM step)
    else []

/-- The variable-angle block of `generateCuboidAxisGrasps`
(grasp_generator.cpp:239-279): for every pose from index
`num_corner_grasps` on (the zero-depth corner poses are skipped, the bound
is captured before the loop), run the `+angle_res` sweep then the
`-angle_res` sweep from that base pose, both starting at the base pose
rotated once. -/
def sweepStage (cuboid_pose : Aff ℚ) (depth width height : ℚ) (gd : GraspData ℚ)
    (ap : AngleParams) (startIdx : ℕ) (grasp_poses : List (Aff ℚ)) : List (Aff ℚ) :=
  let stepP := rotY ap.cRes ap.sRes
  let stepN := rotY ap.cRes (-ap.sRes)
  grasp_poses ++
    ((grasp_poses.drop startIdx).map (fun base =>
      sweepWhile cuboid_pose depth width height gd stepP (ap.maxIter + 1) (base.mulM stepP) ++
      sweepWhile cuboid_pose depth width height gd stepN (ap.maxIter + 1) (base.mulM stepN))).flatten

/-- The bidirectional block of `generateCuboidAxisGrasps`
(grasp_generator.cpp:281-289): every pose accumulated so far is duplicated
with an extra rotation by `π` about its local Z axis
(`cos π = -1`, `sin π = 0`). -/
def bidirStage (grasp_poses : List (Aff ℚ)) : List (Aff ℚ) :=
  grasp_poses ++ grasp_poses.map (fun p => p.mulM (rotZ (-1) 0))

/-- The pose list after the corner and face blocks. -/
def afterFace (cuboid_pose : Aff ℚ) (depth width height : ℚ) (axis : GraspAxis)
    (gd : GraspData ℚ) (ap : AngleParams) : List (Aff ℚ) :=
  faceStage cuboid_pose depth width height axis gd
    (cornerStage cuboid_pose depth width height axis ap)

/-- The pose list after the corner, face and depth blocks. -/
def afterDepth (cuboid_pose : Aff ℚ) (depth width height : ℚ) (axis : GraspAxis)
    (gd : GraspData ℚ) (ap : AngleParams) : List (Aff ℚ) :=
  depthStage gd (afterFace cuboid_pose depth width height axis gd ap)

/-- The pose list after the corner, face, depth and variable-angle blocks
(`num_corner_grasps` of grasp_generator.cpp:155 is the length of the
corner-stage output). -/
def afterSweep (cuboid_pose : Aff ℚ) (depth width height : ℚ) (axis : GraspAxis)
    (gd : GraspData ℚ) (ap : AngleParams) : List (Aff ℚ) :=
  sweepStage cuboid_pose depth width height gd ap
    (cornerStage cuboid_pose depth width height axis ap).length
    (afterDepth cuboid_pose depth width height axis gd ap)

/-- `GraspGenerator::generateCuboidAxisGrasps` (grasp_generator.cpp:72-297):
the full pose list of one axis invocation — corner, face, depth and
variable-angle blocks followed by the bidirectional duplication. -/
def generateCuboidAxisGrasps (cuboid_pose : Aff ℚ) (depth width height : ℚ)
    (axis : GraspAxis) (gd : GraspData ℚ) (ap : AngleParams) : List (Aff ℚ) :=
  bidirStage (afterSweep cuboid_pose depth width height axis gd ap)

/-- `GraspGenerator::addGrasp` (grasp_generator.cpp:480-551), reduced to
the datum the downstream claims depend on: the emitted grasp's pose is
`grasp_pose * grasp_data->grasp_pose_to_eef_pose_` (line 547).  The ROS
message fields, timestamps and the id counter are out-of-scope message
formatting; the quality score is modelled separately by `scoreGrasp`. -/
def addGrasp (grasp_pose : Aff ℚ) (gd : GraspData ℚ) : Aff ℚ :=
  grasp_pose.comp gd.grasp_pose_to_eef_pose

/-- The extent of the cuboid along a given axis. -/
def axisExtent (axis : GraspAxis) (depth width height : ℚ) : ℚ :=
  match axis with
  | GraspAxis.X => depth
  | GraspAxis.Y => width
  | GraspAxis.Z => height

/-- `GraspGenerator::generateGrasps` — box overload
(grasp_generator.cpp:619-657): attempt the X, then Y, then Z axis, each
only when its extent fits `max_grasp_size`, appending the generated grasps
to the caller's collection; always `return true`. -/
def generateGrasps (cuboid_pose : Aff ℚ) (depth width height max_grasp_size : ℚ)
    (gd : GraspData ℚ) (ap : AngleParams)
    (possible_grasps : List (Aff ℚ)) : Bool × List (Aff ℚ) :=
  let g1 := if depth ≤ max_grasp_size then
      possible_grasps ++ (generateCuboidAxisGrasps cuboid_pose depth width height
        GraspAxis.X gd ap).map (fun p => addGrasp p gd)
    else possible_grasps
  let g2 := if width ≤ max_grasp_size then
      g1 ++ (generateCuboidAxisGrasps cuboid_pose depth width height
        GraspAxis.Y gd ap).map (fun p => addGrasp p gd)
    else g1
  let g3 := if height ≤ max_grasp_size then
      g2 ++ (generateCuboidAxisGrasps cuboid_pose depth width height
        GraspAxis.Z gd ap).map (fun p => addGrasp p gd)
    else g2
  (true, g3)

/-- A triangle mesh message (`shape_msgs::Mesh`): vertex positions plus a
triangle index list.  The triangles are never read by the bounding-box
computation. -/
structure Mesh where
  vertices : List (V3 ℚ)
  triangles : List (ℕ × ℕ × ℕ)

/-- The result of `getBoundingBoxFromMesh`: the returned `bool` plus the
four output parameters. -/
structure BBoxResult where
  ok : Bool
  cuboid_pose : Aff ℚ
  depth : ℚ
  width : ℚ
  height : ℚ

/-- `std::numeric_limits<double>::max()`, the min-fold seed
(grasp_generator.cpp:803). -/
def dblMax : ℚ := (2 ^ 53 - 1) * 2 ^ 971

/-- `std::numeric_limits<double>::min()`, the max-fold seed
(grasp_generator.cpp:804) — the smallest positive normal double, not the
most negative one. -/
def dblMin : ℚ := 1 / 2 ^ 1022

/-- The min/max update of the vertex-bounds loop
(grasp_generator.cpp:811-818). -/
def boundsUpdate (mn mx p : V3 ℚ) : V3 ℚ × V3 ℚ :=
  (⟨if p.x < mn.x then p.x else mn.x, if p.y < mn.y then p.y else mn.y,
    if p.z < mn.z then p.z else mn.z⟩,
   ⟨if p.x > mx.x then p.x else mx.x, if p.y > mx.y then p.y else mx.y,
    if p.z > mx.z then p.z else mx.z⟩)

/-- `GraspGenerator::getBoundingBoxFromMesh` (grasp_generator.cpp:727-861).
`es` stands for `Eigen::EigenSolver` — an external library call — and
returns the matrix whose columns are the (real parts of the) eigenvectors
of its argument.  Note the two unchecked degeneracies of the source: the
centroid is divided by the vertex count even when it is zero (IEEE `NaN`;
here the field junk value `0/0 = 0`), and the function unconditionally
returns `true` — there is no empty-mesh error path. -/
def getBoundingBoxFromMesh (es : M3 ℚ → M3 ℚ) (mesh_msg : Mesh) : BBoxResult :=
  let num_vertices := mesh_msg.vertices.length
  let centroidSum := mesh_msg.vertices.foldl (fun acc p => acc + p) ⟨0, 0, 0⟩
  let centroid : V3 ℚ := ⟨centroidSum.x / num_vertices, centroidSum.y / num_vertices,
    centroidSum.z / num_vertices⟩
  let Ixx := mesh_msg.vertices.foldl (fun acc p => acc + p.y * p.y + p.z * p.z) 0
  let Iyy := mesh_msg.vertices.foldl (fun acc p => acc + p.x * p.x + p.z * p.z) 0
  let Izz := mesh_msg.vertices.foldl (fun acc p => acc + p.x * p.x + p.y * p.y) 0
  let Ixy := mesh_msg.vertices.foldl (fun acc p => acc + p.x * p.y) 0
  let Ixz := mesh_msg.vertices.foldl (fun acc p => acc + p.x * p.z) 0
  let Iyz := mesh_msg.vertices.foldl (fun acc p => acc + p.y * p.z) 0
  let inertia_axis_aligned : M3 ℚ :=
    ⟨⟨Ixx, -Ixy, -Ixz⟩, ⟨-Ixy, Iyy, -Iyz⟩, ⟨-Ixz, -Iyz, Izz⟩⟩
  let ev := es inertia_axis_aligned
  let axis_1 : V3 ℚ := ⟨ev.r0.x, ev.r1.x, ev.r2.x⟩
  let axis_2 : V3 ℚ := ⟨ev.r0.y, ev.r1.y, ev.r2.y⟩
  let axis_3 : V3 ℚ := ⟨ev.r0.z, ev.r1.z, ev.r2.z⟩
  let w := axis_1.cross axis_2 - axis_3
  let epsilon : ℚ := 1 / 1000000
  let axis_3 := if ¬(|w.x| < epsilon ∧ |w.y| < epsilon ∧ |w.z| < epsilon)
    then (-1 : ℚ) • axis_3 else axis_3
  let world_to_mesh_transform : Aff ℚ :=
    ⟨⟨⟨axis_1.x, axis_2.x, axis_3.x⟩, ⟨axis_1.y, axis_2.y, axis_3.y⟩,
      ⟨axis_1.z, axis_2.z, axis_3.z⟩⟩, centroid⟩
  let bounds := mesh_msg.vertices.foldl
    (fun acc p => boundsUpdate acc.1 acc.2 (world_to_mesh_transform.inv.apply p))
    (⟨dblMax, dblMax, dblMax⟩, ⟨dblMin, dblMin, dblMin⟩)
  let mn := bounds.1
  let mx := bounds.2
  let translation : V3 ℚ := ⟨(mn.x + mx.x) / 2, (mn.y + mx.y) / 2, (mn.z + mx.z) / 2⟩
  { ok := true
    cuboid_pose := ⟨world_to_mesh_transform.lin, world_to_mesh_transform.apply translation⟩
    depth := mx.x - mn.x
    width := mx.y - mn.y
    height := mx.z - mn.z }

/-- `GraspGenerator::generateGrasps` — mesh overload
(grasp_generator.cpp:600-617): extract the bounding box (propagating a
`false` result) and delegate to the box overload, passing the caller's
`cuboid_pose` (the extracted `mesh_pose` is discarded, as in the source's
TODO). -/
def generateGraspsMesh (es : M3 ℚ → M3 ℚ) (mesh_msg : Mesh) (cuboid_pose : Aff ℚ)
    (max_grasp_size : ℚ) (gd : GraspData ℚ) (ap : AngleParams)
    (possible_grasps : List (Aff ℚ)) : Bool × List (Aff ℚ) :=
  let r := getBoundingBoxFromMesh es mesh_msg
  if r.ok then
    generateGrasps cuboid_pose r.depth r.width r.height max_grasp_size gd ap possible_grasps
  else (false, possible_grasps)

/-- `angle_res = grasp_data->angle_resolution_ * M_PI / 180`
(grasp_generator.cpp:133): the source stores the angular resolution in
degrees and converts it to radians here. -/
noncomputable def angleResolutionRad (angle_resolution_deg : ℝ) : ℝ :=
  angle_resolution_deg * Real.pi / 180

/-- `num_radial_grasps = ceil((π/2)/angle_res)` with the `≤ 0 → 1` clamp
(grasp_generator.cpp:134-137); `angle_res` is the angular resolution in
radians. -/
noncomputable def numRadialGrasps (angle_res : ℝ) : ℤ :=
  if ⌈(Real.pi / 2) / angle_res⌉ ≤ 0 then 1 else ⌈(Real.pi / 2) / angle_res⌉

/-- `int max_iterations = M_PI / angle_res + 1` (grasp_generator.cpp:248):
a double-to-int conversion, which truncates; for the positive values in
use it is the floor. -/
noncomputable def maxIterations (angle_res : ℝ) : ℤ := ⌊Real.pi / angle_res + 1⌋

/-- The mutable generator state touched by `scoreGrasp`: the
`ideal_grasp_pose_` member of `GraspGenerator`. -/
structure GeneratorState where
  ideal_grasp_pose : Aff ℝ

/-- The fixed pose that `scoreGrasp` writes into `ideal_grasp_pose_` on
every call (grasp_generator.cpp:556-558):
`Identity * (AngleAxis(π/2, UnitY) * AngleAxis(π/2, UnitZ))`. -/
noncomputable def idealGraspPose : Aff ℝ :=
  Aff.mulM Aff.id ((rotY (Real.cos (Real.pi / 2)) (Real.sin (Real.pi / 2))).mul
    (rotZ (Real.cos (Real.pi / 2)) (Real.sin (Real.pi / 2))))

/-- `GraspGenerator::scoreGrasp` (grasp_generator.cpp:553-598).  The call
first overwrites the generator's `ideal_grasp_pose_` member with the fixed
constant, then computes three components — angular closeness of the local
Z axes, angular closeness of the local Y axes, and closeness of the
palm-to-centroid distance to `finger_to_palm_depth - grasp_min_depth`
(zero beyond that length, maximal at distance zero) — and returns their
weighted mean (all weights 1) together with the updated state. -/
noncomputable def scoreGrasp (pose : Aff ℝ) (gd : GraspData ℝ)
    (object_pose : Aff ℝ) (st : GeneratorState) : ℝ × GeneratorState :=
  let st1 : GeneratorState := ⟨idealGraspPose⟩
  let axis_grasp0 := pose.lin.mulVec unitZ
  let axis_desired0 := st1.ideal_grasp_pose.lin.mulVec unitZ
  let score0 := (Real.pi - Real.arccos (axis_grasp0.dot axis_desired0)) / Real.pi
  let axis_grasp1 := pose.lin.mulVec unitY
  let axis_desired1 := st1.ideal_grasp_pose.lin.mulVec unitY
  let score1 := (Real.pi - Real.arccos (axis_grasp1.dot axis_desired1)) / Real.pi
  let finger_length := gd.finger_to_palm_depth - gd.grasp_min_depth
  let delta := pose.tr - object_pose.tr
  let distance := Real.sqrt (delta.dot delta)
  let score2 := if distance > finger_length then 0
    else (finger_length - distance) / finger_length
  ((score0 * 1 + score1 * 1 + score2 * 1) / 3, st1)

/-- Concrete cuboid pose used in the evaluated instances: the identity. -/
def cubC : Aff ℚ := Aff.id

/-- Concrete gripper data used in the evaluated instances:
`gripper_width = 1`, `finger_to_palm_depth = 3`, `grasp_min_depth = 1`,
`grasp_resolution = 1`, `grasp_depth_resolution = 1`, identity
end-effector transform.  `finger_depth = 2`. -/
def gdC : GraspData ℚ := ⟨1, 3, 1, 1, 1, Aff.id⟩

/-- Concrete angle parameters used in the evaluated instances.  The sweep
step is the rational circle point `(3/5, 4/5)` (angle `≈ 0.9273 rad`,
`≈ 53.13°`); consistently, `numRadial = ceil((π/2)/0.9273) = 2` and
`maxIter = int(π/0.9273 + 1) = 4`.  The corner-fan step `delta_angle` is
`(π/2)/(numRadial+1) = π/6`, whose cosine is irrational; the rational
circle point `(5/13, 12/13)` stands in for it (it only shapes the corner
fans' orientations, which no evaluated claim depends on). -/
def apC : AngleParams := ⟨3 / 5, 4 / 5, 5 / 13, 12 / 13, 2, 4⟩

/-- The poses appended by the variable-angle block in the concrete
instance: a `2×2×2` box at the identity pose, around its X axis. -/
def emittedSweepPoses : List (Aff ℚ) :=
  (afterSweep cubC 2 2 2 GraspAxis.X gdC apC).drop
    (afterDepth cubC 2 2 2 GraspAxis.X gdC apC).length

/-- Does this pose's reach-in segment intersect the concrete `2×2×2` box? -/
def collidesC (p : Aff ℚ) : Bool := graspIntersectionHelper cubC 2 2 2 p gdC

/-- Concrete gripper data for the score instances:
`finger_to_palm_depth = 2`, `grasp_min_depth = 1`, so the usable finger
length is `1`. -/
noncomputable def gdR : GraspData ℝ := ⟨1, 2, 1, 1, 1, Aff.id⟩

/-- Concrete object pose for the score counterexample: identity rotation,
centroid at `(1, 0, 0)` — exactly one finger length from the ideal pose's
position. -/
noncomputable def objC : Aff ℝ := ⟨M3.id, ⟨1, 0, 0⟩⟩

/-- Concrete initial generator state: `ideal_grasp_pose_` holding the
identity transform. -/
noncomputable def stC : GeneratorState := ⟨Aff.id⟩

lemma cornerFan_length (stepDelta : M3 ℚ) (n : ℕ) (pose : Aff ℚ) :
    (cornerFan stepDelta n pose).length = n := by
  induction n generalizing pose with
  | zero => rfl
  | succ n ih => simpa [cornerFan] using ih _

lemma faceRow_length (delta : V3 ℚ) (n : ℕ) (pose : Aff ℚ) :
    (faceRow delta n pose).length = n := by
  induction n generalizing pose with
  | zero => rfl
  | succ n ih => simpa [faceRow] using ih _

lemma depthCopies_length (delta_f : ℚ) (grasp_dir : V3 ℚ) (n : ℕ) (pose : Aff ℚ) :
    (depthCopies delta_f grasp_dir n pose).length = n := by
  induction n generalizing pose with
  | zero => rfl
  | succ n ih => simpa [depthCopies] using ih _

lemma sum_map_const {β : Type} (l : List β) (n : ℕ) :
    (l.map (fun _ => n)).sum = l.length * n := by
  induction l with
  | nil => simp
  | cons b l ih => simp [ih, Nat.succ_mul, Nat.add_comm]

lemma addCornerGraspsHelper_length (pose : Aff ℚ) (baseRot : M3 ℚ) (translation : V3 ℚ)
    (cornerRot : M3 ℚ) (ap : AngleParams) (grasp_poses : List (Aff ℚ)) :
    (addCornerGraspsHelper pose baseRot translation cornerRot ap grasp_poses).length =
      grasp_poses.length + ap.numRadial := by
  simp [addCornerGraspsHelper, cornerFan_length]

lemma sweepWhile_mem (cuboid_pose : Aff ℚ) (depth width height : ℚ) (gd : GraspData ℚ)
    (step : M3 ℚ) (n : ℕ) (base p : Aff ℚ)
    (hp : p ∈ sweepWhile cuboid_pose depth width height gd step n base) :
    graspIntersectionHelper cuboid_pose depth width height p gd = true := by
  induction n generalizing base with
  | zero => simp [sweepWhile] at hp
  | succ n ih =>
    rw [sweepWhile] at hp
    by_cases hc : graspIntersectionHelper cuboid_pose depth width height base gd
    · rw [if_pos hc] at hp
      rcases List.mem_cons.mp hp with h | h
      · exact h ▸ hc
      · exact ih _ h
    · simp [hc] at hp

lemma sweepWhile_length_le (cuboid_pose : Aff ℚ) (depth width height : ℚ)
    (gd : GraspData ℚ) (step : M3 ℚ) (n : ℕ) (base : Aff ℚ) :
    (sweepWhile cuboid_pose depth width height gd step n base).length ≤ n := by
  induction n generalizing base with
  | zero => simp [sweepWhile]
  | succ n ih =>
    rw [sweepWhile]
    split
    · simpa using ih _
    · simp

/-- Claim C6: `intersectionHelper` returns `true` iff `0 ≤ t ≤ 1` and the
point interpolated between the two in-plane coordinate pairs at parameter
`t` lies within `[-a/2, a/2] × [-b/2, b/2]`; in particular any `t` outside
`[0, 1]` returns `false` regardless of the in-plane point. -/
theorem intersectionHelper_contract (t u1 v1 u2 v2 a b : ℚ) :
    (intersectionHelper t u1 v1 u2 v2 a b = true ↔
      (0 ≤ t ∧ t ≤ 1 ∧
        -a / 2 ≤ u1 + t * (u2 - u1) ∧ u1 + t * (u2 - u1) ≤ a / 2 ∧
        -b / 2 ≤ v1 + t * (v2 - v1) ∧ v1 + t * (v2 - v1) ≤ b / 2)) ∧
    (¬(0 ≤ t ∧ t ≤ 1) → intersectionHelper t u1 v1 u2 v2 a b = false) := by
  constructor
  · unfold intersectionHelper
    split_ifs <;> simp_all
  · intro h
    unfold intersectionHelper
    rw [if_neg h]

/-- Witness for C6: `t = 2` lies outside `[0, 1]`, so the test is `false`
even though the in-plane point `(0, 0)` is inside the rectangle. -/
theorem intersectionHelper_contract_witness :
    intersectionHelper 2 0 0 0 0 1 1 = false :=
  (intersectionHelper_contract 2 0 0 0 0 1 1).2 (by norm_num)

/-- Claim C8: the bidirectional-duplication block appends, for each pose
accumulated before it, exactly one copy rotated by `π` about that pose's
local Z axis, so the candidate-pose count after the block is exactly twice
the pre-duplication count. -/
theorem bidirectional_duplication_doubles (cuboid_pose : Aff ℚ)
    (depth width height : ℚ) (axis : GraspAxis) (gd : GraspData ℚ) (ap : AngleParams) :
    (generateCuboidAxisGrasps cuboid_pose depth width height axis gd ap).length =
      2 * (afterSweep cuboid_pose depth width height axis gd ap).length ∧
    (generateCuboidAxisGrasps cuboid_pose depth width height axis gd ap).take
        (afterSweep cuboid_pose depth width height axis gd ap).length =
      afterSweep cuboid_pose depth width height axis gd ap ∧
    (generateCuboidAxisGrasps cuboid_pose depth width height axis gd ap).drop
        (afterSweep cuboid_pose depth width height axis gd ap).length =
      (afterSweep cuboid_pose depth width height axis gd ap).map
        (fun p => p.mulM (rotZ (-1) 0)) := by
  refine ⟨?_, ?_, ?_⟩
  · simp [generateCuboidAxisGrasps, bidirStage, two_mul]
  · simp [generateCuboidAxisGrasps, bidirStage,
      List.take_left (afterSweep cuboid_pose depth width height axis gd ap) _]
  · simp [generateCuboidAxisGrasps, bidirStage,
      List.drop_left (afterSweep cuboid_pose depth width height axis gd ap) _]

@[simp] lemma V3.add_def (a b : V3 α) :
    a + b = ⟨a.x + b.x, a.y + b.y, a.z + b.z⟩ := rfl

@[simp] lemma V3.sub_def (a b : V3 α) :
    a - b = ⟨a.x - b.x, a.y - b.y, a.z - b.z⟩ := rfl

@[simp] lemma V3.neg_def (a : V3 α) : -a = ⟨-a.x, -a.y, -a.z⟩ := rfl

@[simp] lemma V3.smul_def (c : α) (v : V3 α) :
    c • v = ⟨c * v.x, c * v.y, c * v.z⟩ := rfl

lemma V3.sub_smul_sub (u v : V3 α) (a b : α) :
    u - a • v - b • v = u - (a + b) • v := by
  simp only [V3.smul_def, V3.sub_def, V3.mk.injEq]
  refine ⟨by ring, by ring, by ring⟩

lemma numDepthGrasps_pos (finger_depth res : ℚ) :
    1 ≤ numDepthGrasps finger_depth res := by
  unfold numDepthGrasps
  split <;> omega

lemma depthCopies_eq_map (delta_f : ℚ) (grasp_dir : V3 ℚ) (n : ℕ) (p : Aff ℚ) :
    depthCopies delta_f grasp_dir n p = (List.range n).map
      (fun j => ⟨p.lin, p.tr - (((j : ℚ) + 1) * delta_f) • grasp_dir⟩) := by
  induction n generalizing p with
  | zero => rfl
  | succ n ih =>
    rw [depthCopies, List.range_succ_eq_map, List.map_cons, List.map_map, ih]
    refine congrArg₂ List.cons (by simp) ?_
    refine congrArg (fun f => List.map f (List.range n)) (funext fun j => ?_)
    show Aff.mk p.lin (p.tr - delta_f • grasp_dir - (((j : ℚ) + 1) * delta_f) • grasp_dir) = _
    rw [V3.sub_smul_sub]
    simp only [Function.comp, Aff.mk.injEq, true_and]
    push_cast
    ring_nf

/-- Claim C9: for every pose accumulated by the corner and face families,
the depth block appends exactly `max(1, ceil(finger_depth/depth_res))`
additional poses — the `j`-th translated by `(j+1) * (finger_depth/count)`
along the pose's local Z (approach) axis (with a negative sign, i.e.
backing the palm away), whose cumulative span is exactly `finger_depth =
finger_to_palm_depth - grasp_min_depth`; hence the count after the block
is the pre-depth count times `1 + max(1, ceil(finger_depth/depth_res))`. -/
theorem depth_grasp_spec (gd : GraspData ℚ) (grasp_poses : List (Aff ℚ)) :
    numDepthGrasps (fingerDepth gd) gd.grasp_depth_resolution =
      max 1 ⌈fingerDepth gd / gd.grasp_depth_resolution⌉ ∧
    (depthStage gd grasp_poses).length = grasp_poses.length *
      (1 + (numDepthGrasps (fingerDepth gd) gd.grasp_depth_resolution).toNat) ∧
    ((numDepthGrasps (fingerDepth gd) gd.grasp_depth_resolution : ℚ)) *
        (fingerDepth gd / (numDepthGrasps (fingerDepth gd) gd.grasp_depth_resolution : ℚ)) =
      fingerDepth gd ∧
    (∀ (delta_f : ℚ) (grasp_dir : V3 ℚ) (n : ℕ) (p : Aff ℚ),
      depthCopies delta_f grasp_dir n p = (List.range n).map
        (fun j => ⟨p.lin, p.tr - (((j : ℚ) + 1) * delta_f) • grasp_dir⟩)) ∧
    depthStage gd grasp_poses = grasp_poses ++ (grasp_poses.map
      (fun p => depthCopies
        (fingerDepth gd / (numDepthGrasps (fingerDepth gd) gd.grasp_depth_resolution : ℚ))
        (p.lin.mulVec unitZ)
        (numDepthGrasps (fingerDepth gd) gd.grasp_depth_resolution).toNat p)).flatten := by
  refine ⟨?_, ?_, ?_, depthCopies_eq_map, rfl⟩
  · unfold numDepthGrasps
    split <;> omega
  · simp only [depthStage, List.length_append, List.length_flatten, List.map_map,
      Function.comp_def, depthCopies_length, sum_map_const]
    ring
  · have h1 := numDepthGrasps_pos (fingerDepth gd) gd.grasp_depth_resolution
    have hne : ((numDepthGrasps (fingerDepth gd) gd.grasp_depth_resolution : ℚ)) ≠ 0 := by
      exact_mod_cast (by omega : numDepthGrasps (fingerDepth gd) gd.grasp_depth_resolution ≠ 0)
    field_simp

/-- Claim C10: the box-overload entry point returns `true` for every
input; an axis is attempted iff its extent is `≤ max_grasp_size`, in the
fixed order X, Y, Z; with no qualifying axis the grasp list is unchanged
and the call still reports success. -/
theorem generateGrasps_box_total (cuboid_pose : Aff ℚ)
    (depth width height max_grasp_size : ℚ) (gd : GraspData ℚ) (ap : AngleParams)
    (possible_grasps : List (Aff ℚ)) :
    (generateGrasps cuboid_pose depth width height max_grasp_size gd ap
        possible_grasps).1 = true ∧
    (generateGrasps cuboid_pose depth width height max_grasp_size gd ap
        possible_grasps).2 = possible_grasps ++
      ((([GraspAxis.X, GraspAxis.Y, GraspAxis.Z].filter
          (fun axis => axisExtent axis depth width height ≤ max_grasp_size)).map
        (fun axis => (generateCuboidAxisGrasps cuboid_pose depth width height axis gd ap).map
          (fun p => addGrasp p gd))).flatten) := by
  refine ⟨rfl, ?_⟩
  by_cases hd : depth ≤ max_grasp_size <;> by_cases hw : width ≤ max_grasp_size <;>
    by_cases hh : height ≤ max_grasp_size <;>
    simp [generateGrasps, axisExtent, hd, hw, hh, List.filter]

lemma cornerStage_length (cuboid_pose : Aff ℚ) (depth width height : ℚ)
    (axis : GraspAxis) (ap : AngleParams) :
    (cornerStage cuboid_pose depth width height axis ap).length = 4 * ap.numRadial := by
  simp only [cornerStage, addCornerGraspsHelper_length, List.length_nil]
  ring

/-- Claim C3: for a positive angular resolution `ar` (radians), the
clamped radial count of the source equals `max(1, ceil((π/2)/ar))`; each
of the four `addCornerGraspsHelper` calls appends exactly that many poses
to the accumulator, and the corner block in total produces four times that
many.  The clamp/`max` identity needs no positivity hypothesis, so the
count formula is stated for the `AngleParams` record whose `numRadial`
carries the source's `num_radial_grasps` value. -/
theorem corner_grasp_count (ar : ℝ) (ap : AngleParams)
    (hn : (ap.numRadial : ℤ) = numRadialGrasps ar)
    (pose : Aff ℚ) (baseRot cornerRot : M3 ℚ) (translation : V3 ℚ)
    (grasp_poses : List (Aff ℚ)) (cuboid_pose : Aff ℚ) (depth width height : ℚ)
    (axis : GraspAxis) :
    numRadialGrasps ar = max 1 ⌈(Real.pi / 2) / ar⌉ ∧
    ((addCornerGraspsHelper pose baseRot translation cornerRot ap grasp_poses).length : ℤ) =
      grasp_poses.length + max 1 ⌈(Real.pi / 2) / ar⌉ ∧
    ((cornerStage cuboid_pose depth width height axis ap).length : ℤ) =
      4 * max 1 ⌈(Real.pi / 2) / ar⌉ := by
  have h1 : numRadialGrasps ar = max 1 ⌈(Real.pi / 2) / ar⌉ := by
    unfold numRadialGrasps
    split <;> omega
  have hmax : (ap.numRadial : ℤ) = max 1 ⌈(Real.pi / 2) / ar⌉ := hn.trans h1
  refine ⟨h1, ?_, ?_⟩
  · rw [addCornerGraspsHelper_length, Nat.cast_add, hmax]
  · rw [cornerStage_length, Nat.cast_mul, hmax]
    norm_num

/-- Witness for C3 at `ar = π/3`: `(π/2)/(π/3) = 3/2`, so the formula
gives `2` radial poses per corner and the concrete corner block holds
`4 * 2 = 8` poses. -/
theorem corner_grasp_count_witness :
    numRadialGrasps (Real.pi / 3) = max 1 ⌈(Real.pi / 2) / (Real.pi / 3)⌉ ∧
    (cornerStage cubC 2 2 2 GraspAxis.X apC).length = 8 := by
  have harith : (Real.pi / 2) / (Real.pi / 3) = 3 / 2 := by
    rw [div_div_div_comm, div_self Real.pi_ne_zero]
    norm_num
  have hceil : ⌈(3 / 2 : ℝ)⌉ = 2 := by
    rw [Int.ceil_eq_iff]
    norm_num
  have hn : (apC.numRadial : ℤ) = numRadialGrasps (Real.pi / 3) := by
    unfold numRadialGrasps
    rw [harith, hceil]
    norm_num [apC]
  have h := corner_grasp_count (Real.pi / 3) apC hn Aff.id M3.id M3.id ⟨0, 0, 0⟩ []
    cubC 2 2 2 GraspAxis.X
  refine ⟨h.1, ?_⟩
  have h3 := h.2.2
  rw [harith, hceil] at h3
  norm_num at h3
  exact_mod_cast h3

set_option maxRecDepth 100000 in
/-- Claim C2 (failing input): box `2 × 10 × 1` (depth, width, height)
around the X axis gives `length_along_a = width = 10` and
`length_along_b = height = 1`; with `gripper_width = 1` and
`grasp_resolution = 1` the per-direction counts are `10` and `1`, yet the
face block appends only `4 * 1 = 4` poses (all four `addFaceGraspsHelper`
calls receive `num_grasps_along_b`), not the `2 * 10 + 2 * 1 = 22` the
per-face formula of the claim yields. -/
theorem face_grasp_counts_at_failing_input :
    numGraspsAlong 10 1 1 = 10 ∧
    numGraspsAlong 1 1 1 = 1 ∧
    (afterFace cubC 2 10 1 GraspAxis.X gdC apC).length =
      (cornerStage cubC 2 10 1 GraspAxis.X apC).length + 4 := by
  refine ⟨by with_unfolding_all rfl, by with_unfolding_all rfl, by with_unfolding_all rfl⟩

/-- Claim C1 (amended): every pose appended by the variable-angle block
satisfies `graspIntersectionHelper` — the source's while-condition — i.e.
its reach-in segment *does* intersect the box; and each directional sweep
appends at most its fuel bound (`max_iterations + 1`) many poses. -/
theorem sweep_appends_only_intersecting (cuboid_pose : Aff ℚ)
    (depth width height : ℚ) (gd : GraspData ℚ) (ap : AngleParams)
    (startIdx : ℕ) (grasp_poses : List (Aff ℚ)) :
    (∀ p ∈ (sweepStage cuboid_pose depth width height gd ap startIdx
        grasp_poses).drop grasp_poses.length,
      graspIntersectionHelper cuboid_pose depth width height p gd = true) ∧
    (∀ (step : M3 ℚ) (fuel : ℕ) (base : Aff ℚ),
      (sweepWhile cuboid_pose depth width height gd step fuel base).length ≤ fuel) := by
  constructor
  · intro p hp
    unfold sweepStage at hp
    rw [List.drop_left] at hp
    rcases List.mem_flatten.mp hp with ⟨l, hl, hpl⟩
    rcases List.mem_map.mp hl with ⟨base, _, rfl⟩
    rcases List.mem_append.mp hpl with h | h <;>
      exact sweepWhile_mem cuboid_pose depth width height gd _ _ _ p h
  · intro step fuel base
    exact sweepWhile_length_le cuboid_pose depth width height gd step fuel base

set_option maxRecDepth 1000000 in
/-- Witness for C1's amended theorem: the first pose emitted by the
variable-angle block in the concrete `2×2×2` instance indeed has an
intersecting reach-in segment. -/
theorem sweep_appends_only_intersecting_witness :
    graspIntersectionHelper cubC 2 2 2 (emittedSweepPoses.getD 0 Aff.id) gdC = true := by
  have h := (sweep_appends_only_intersecting cubC 2 2 2 gdC apC
    (cornerStage cubC 2 2 2 GraspAxis.X apC).length
    (afterDepth cubC 2 2 2 GraspAxis.X gdC apC)).1
  exact h _ (of_decide_eq_true (by with_unfolding_all rfl))

set_option maxRecDepth 1000000 in
/-- Counterexample for C1 as stated: in the concrete `2×2×2` instance the
variable-angle block emits a nonempty list of poses, and every one of them
has a reach-in segment that intersects the box (the while-loop pushes
while the Intersection Test reports an intersection and stops at the
first non-intersecting orientation — the opposite of the claim). -/
theorem sweep_emitted_poses_intersect_box :
    emittedSweepPoses ≠ [] ∧ emittedSweepPoses.all collidesC = true := by
  refine ⟨of_decide_eq_true (by with_unfolding_all rfl), by with_unfolding_all rfl⟩

/-- Claim C5 (failing input): for a mesh with zero vertices the box
extractor does not fail — it divides the centroid by the vertex count
`0` and still returns `true`, and the mesh-overload entry point therefore
also reports success instead of propagating any error. -/
theorem getBoundingBoxFromMesh_empty_mesh_succeeds (es : M3 ℚ → M3 ℚ)
    (triangles : List (ℕ × ℕ × ℕ)) (cuboid_pose : Aff ℚ) (max_grasp_size : ℚ)
    (gd : GraspData ℚ) (ap : AngleParams) (possible_grasps : List (Aff ℚ)) :
    (getBoundingBoxFromMesh es ⟨[], triangles⟩).ok = true ∧
    (generateGraspsMesh es ⟨[], triangles⟩ cuboid_pose max_grasp_size gd ap
        possible_grasps).1 = true :=
  ⟨rfl, rfl⟩

lemma idealGraspPose_lin_eq :
    idealGraspPose.lin = M3.mk (V3.mk 0 0 1) (V3.mk 1 0 0) (V3.mk 0 1 0) := by
  simp [idealGraspPose, Aff.mulM, Aff.id, M3.mul, M3.id, rotY, rotZ,
    Real.cos_pi_div_two, Real.sin_pi_div_two]

lemma idealGraspPose_tr_eq : idealGraspPose.tr = V3.mk 0 0 0 := rfl

/-- Counterexample for C4 as stated: with a usable finger length of `1`
(`finger_to_palm_depth = 2`, `grasp_min_depth = 1`), a candidate that
equals the ideal pose exactly while the box centroid sits exactly one
finger length away scores `2/3`, not `1`: components A and B are `1`, but
component C is `(1 - 1)/1 = 0` at that distance — the scorer's component
C is maximal at distance `0`, not at distance equal to the finger
length. -/
theorem scoreGrasp_ideal_at_finger_length_ne_one :
    (scoreGrasp idealGraspPose gdR objC stC).1 = 2 / 3 ∧ ((2 : ℝ) / 3 ≠ 1) := by
  constructor
  · unfold scoreGrasp
    simp only [idealGraspPose_lin_eq, idealGraspPose_tr_eq, gdR, objC, M3.mulVec, V3.dot,
      unitY, unitZ, V3.sub_def]
    norm_num [Real.arccos_one, Real.sqrt_one, div_self Real.pi_ne_zero]
  · norm_num

/-- Claim C4 (amended): the Grasp Scorer returns exactly `1` when the
candidate's orientation equals the ideal pose's and the palm coincides
with the box centroid (distance `0`; component C falls linearly to `0` at
distance equal to the usable finger length); and when the distance
exceeds the usable finger length, component C contributes exactly `0`
while the overall score is still the mean of the three weighted
components. -/
theorem scoreGrasp_amended_spec (gd : GraspData ℝ) (object_pose : Aff ℝ)
    (st : GeneratorState) :
    (0 < gd.finger_to_palm_depth - gd.grasp_min_depth →
      (scoreGrasp (Aff.mk idealGraspPose.lin object_pose.tr) gd object_pose st).1 = 1) ∧
    (∀ pose : Aff ℝ,
      gd.finger_to_palm_depth - gd.grasp_min_depth <
        Real.sqrt ((pose.tr - object_pose.tr).dot (pose.tr - object_pose.tr)) →
      (scoreGrasp pose gd object_pose st).1 =
        ((Real.pi - Real.arccos ((pose.lin.mulVec unitZ).dot
            (idealGraspPose.lin.mulVec unitZ))) / Real.pi * 1 +
         (Real.pi - Real.arccos ((pose.lin.mulVec unitY).dot
            (idealGraspPose.lin.mulVec unitY))) / Real.pi * 1 +
         0 * 1) / 3) := by
  constructor
  · intro h
    unfold scoreGrasp
    simp only [idealGraspPose_lin_eq, M3.mulVec, V3.dot, unitY, unitZ, V3.sub_def, sub_self]
    norm_num [Real.arccos_one, Real.sqrt_zero, div_self Real.pi_ne_zero]
    rw [if_neg (not_lt.mpr (le_of_lt (by linarith))), div_self (by linarith)]
    norm_num
  · intro pose hdist
    unfold scoreGrasp
    simp only [V3.sub_def, V3.dot] at hdist ⊢
    rw [if_pos hdist]

/-- Witness for C4's amended theorem: at the concrete gripper data
(`finger length 1`), the ideal orientation at the centroid scores exactly
`1`, and at distance `2 > 1` the score is `(1 + 1 + 0)/3 = 2/3`. -/
theorem scoreGrasp_amended_spec_witness :
    (scoreGrasp (Aff.mk idealGraspPose.lin (Aff.id : Aff ℝ).tr) gdR Aff.id stC).1 = 1 ∧
    (scoreGrasp (Aff.mk idealGraspPose.lin (V3.mk 2 0 0)) gdR Aff.id stC).1 = 2 / 3 := by
  constructor
  · exact (scoreGrasp_amended_spec gdR Aff.id stC).1 (by norm_num [gdR])
  · have hd : gdR.finger_to_palm_depth - gdR.grasp_min_depth <
        Real.sqrt (((V3.mk 2 0 0 : V3 ℝ) - (Aff.id : Aff ℝ).tr).dot
          ((V3.mk 2 0 0 : V3 ℝ) - (Aff.id : Aff ℝ).tr)) := by
      have h4 : Real.sqrt 4 = 2 := by
        rw [show (4 : ℝ) = 2 ^ 2 by norm_num, Real.sqrt_sq (by norm_num : (0 : ℝ) ≤ 2)]
      simp only [gdR, Aff.id, V3.sub_def, V3.dot]
      norm_num [h4]
    have h2 := (scoreGrasp_amended_spec gdR Aff.id stC).2
      (Aff.mk idealGraspPose.lin (V3.mk 2 0 0)) hd
    rw [h2, idealGraspPose_lin_eq]
    simp only [M3.mulVec, V3.dot, unitY, unitZ]
    norm_num [Real.arccos_one, div_self Real.pi_ne_zero]

/-- Counterexample for C7 as stated: scoring is not free of state
effects — `scoreGrasp` overwrites the generator's `ideal_grasp_pose_`
member on every call, so calling it on a generator whose member holds the
identity transform leaves the generator in a different state. -/
theorem scoreGrasp_mutates_generator_state :
    (scoreGrasp idealGraspPose gdR objC stC).2 ≠ stC := by
  intro h
  have h2 := congrArg (fun s => s.ideal_grasp_pose.lin.r0.x) h
  simp only [scoreGrasp] at h2
  rw [idealGraspPose_lin_eq] at h2
  simp [stC, Aff.id, M3.id] at h2

/-- Claim C7 (amended): the only state effect of `scoreGrasp` is
overwriting the `ideal_grasp_pose_` member with the same fixed constant
on every call: the post-state is independent of the pre-state, the
returned score depends only on the arguments (not on the generator
state), and a second call leaves the state unchanged. -/
theorem scoreGrasp_state_effect (pose : Aff ℝ) (gd : GraspData ℝ)
    (object_pose : Aff ℝ) (s s' : GeneratorState) :
    (scoreGrasp pose gd object_pose s).2.ideal_grasp_pose = idealGraspPose ∧
    (scoreGrasp pose gd object_pose s).2 = (scoreGrasp pose gd object_pose s').2 ∧
    (scoreGrasp pose gd object_pose s).1 = (scoreGrasp pose gd object_pose s').1 ∧
    (scoreGrasp pose gd object_pose ((scoreGrasp pose gd object_pose s).2)).2 =
      (scoreGrasp pose gd object_pose s).2 :=
  ⟨rfl, rfl, rfl, rfl⟩

end MoveitGrasps
